import Mathlib

/-!
Shallow embedding of the M50740 execution engine
(src/InstructionSets/M50740/Executor.cpp) and proofs about the claims of
the specification. Machine bytes are modelled as `Nat` with explicit
masking; the memory image is a function `Nat → Nat` (the C++ array
`uint8_t memory_[0x2000]`), and machine state is the structure `MState`.
-/

namespace M50740

/-- Machine state of the executor: registers, flags (stored exactly as the
C++ fields store them: `negative_result_` and `overflow_result_` are full
bytes whose bit 7 is the flag, `interrupt_disable_` holds 0x00 or 0x04,
`zero_result_` is a byte that is zero exactly when the Z flag is set,
`carry_flag_` holds 0 or 1), the memory image, and the remaining cycle
budget (`subtract_duration`'s target in the CachingExecutor base). -/
structure MState where
  a : Nat
  x : Nat
  y : Nat
  s : Nat
  pc : Nat
  negativeResult : Nat
  overflowResult : Nat
  indexMode : Bool
  decimalMode : Bool
  interruptDisable : Nat
  zeroResult : Nat
  carryFlag : Nat
  memory : Nat → Nat
  duration : Int

/-- The stubbed peripheral addresses of `Executor::read` (Executor.cpp
lines 59-75): "Port R" 0xd0-0xdf, ports P0-P3 at 0xe0-0xe5 and 0xe8-0xe9
(0xe6 and 0xe7 are absent from the case list), and timers 0xf9-0xff. -/
def stubbed (address : Nat) : Bool :=
  (0xd0 ≤ address && address ≤ 0xdf) ||
  (address == 0xe0) || (address == 0xe1) ||
  (address == 0xe2) || (address == 0xe3) ||
  (address == 0xe4) || (address == 0xe5) ||
  (address == 0xe8) || (address == 0xe9) ||
  (0xf9 ≤ address && address ≤ 0xff)

/-- `Executor::read` (Executor.cpp lines 51-77): mask the address to 13
bits; stubbed peripheral addresses return 0xff, everything else returns
the memory array byte. -/
def readMem (mem : Nat → Nat) (address : Nat) : Nat :=
  if stubbed (address &&& 0x1fff) then 0xff else mem (address &&& 0x1fff)

/-- `Executor::write` (Executor.cpp lines 79-87): mask the address to 13
bits; only addresses below 0x60 are stored, all others are no-ops. -/
def writeMem (mem : Nat → Nat) (address value : Nat) : Nat → Nat :=
  if address &&& 0x1fff < 0x60 then
    (fun a => if a = address &&& 0x1fff then value else mem a)
  else mem

/-- `Executor::push` (Executor.cpp lines 89-92): write at the stack
pointer, then decrement it (8-bit wrap-around of `--s_`). -/
def push (value : Nat) (st : MState) : MState :=
  { st with memory := writeMem st.memory st.s value, s := (st.s + 255) % 256 }

/-- `Executor::pull` (Executor.cpp lines 94-97): increment the stack
pointer (8-bit wrap-around of `++s_`), then read at it. Returns the new
state and the byte read. -/
def pull (st : MState) : MState × Nat :=
  let s1 := (st.s + 1) % 256
  ({ st with s := s1 }, readMem st.memory s1)

/-- `Executor::set_flags` (Executor.cpp lines 99-107): unpack a status
byte into the seven flag fields. `!(flags & 0x02)` is the C++ bool
converted back to a byte, hence 1 or 0. -/
def setFlags (f : Nat) (st : MState) : MState :=
  { st with
    negativeResult := f,
    overflowResult := (f <<< 1) &&& 0xff,
    indexMode := f &&& 0x20 != 0,
    decimalMode := f &&& 0x08 != 0,
    interruptDisable := f &&& 0x04,
    zeroResult := if f &&& 0x02 = 0 then 1 else 0,
    carryFlag := f &&& 0x01 }

/-- `Executor::flags` (Executor.cpp lines 109-118): pack the seven flag
fields into a status byte. -/
def flagsByte (st : MState) : Nat :=
  (st.negativeResult &&& 0x80) |||
  ((st.overflowResult &&& 0x80) >>> 1) |||
  (if st.indexMode then 0x20 else 0x00) |||
  (if st.decimalMode then 0x08 else 0x00) |||
  st.interruptDisable |||
  (if st.zeroResult = 0 then 0x02 else 0x00) |||
  st.carryFlag

/-- A fixed all-zero memory image, used for concrete evaluations. -/
def zeroMem : Nat → Nat := fun _ => 0

/-- A concrete baseline state for evaluations and witnesses. -/
def baseState : MState :=
  { a := 0, x := 0, y := 0, s := 0, pc := 0,
    negativeResult := 0, overflowResult := 0,
    indexMode := false, decimalMode := false,
    interruptDisable := 0, zeroResult := 1, carryFlag := 0,
    memory := zeroMem, duration := 0 }

/-- Addresses below 0x2000 are unchanged by the 13-bit mask. -/
theorem and_mask13_of_lt {n : Nat} (h : n < 0x2000) : n &&& 0x1fff = n := by
  have h2 : n < 2 ^ 13 := by omega
  have h3 := Nat.and_pow_two_sub_one_of_lt_two_pow h2
  norm_num at h3
  exact h3

/-- Addresses below the first stubbed range are not stubbed. -/
theorem stubbed_eq_false_of_lt {n : Nat} (h : n < 0xd0) : stubbed n = false := by
  simp only [stubbed, Bool.or_eq_false_iff, Bool.and_eq_false_iff,
    decide_eq_false_iff_not, not_le, beq_eq_false_iff_ne, ne_eq]
  omega

/-- C4 (amended): `push` then immediate `pull` always restores the stack
pointer; when the stack pointer lies in the writable RAM region
(below 0x60) the byte returned by `pull` is exactly the byte pushed. -/
theorem c4_push_pull_roundtrip (st : MState) (v : Nat) (hs : st.s < 256) :
    (pull (push v st)).1.s = st.s ∧
    (st.s < 0x60 → (pull (push v st)).2 = v) := by
  have hs1 : ((st.s + 255) % 256 + 1) % 256 = st.s := by omega
  constructor
  · show ((st.s + 255) % 256 + 1) % 256 = st.s
    exact hs1
  · intro h
    show readMem (writeMem st.memory st.s v) (((st.s + 255) % 256 + 1) % 256) = v
    rw [hs1]
    unfold readMem writeMem
    rw [and_mask13_of_lt (show st.s < 0x2000 by omega),
      stubbed_eq_false_of_lt (show st.s < 0xd0 by omega)]
    simp [h]

/-- C4 witness: concrete application of the round-trip theorem at stack
pointer 0x30 and byte 0x42. -/
theorem c4_push_pull_witness :
    (pull (push 0x42 { baseState with s := 0x30 })).1.s = 0x30 ∧
    (0x30 < 0x60 → (pull (push 0x42 { baseState with s := 0x30 })).2 = 0x42) :=
  c4_push_pull_roundtrip { baseState with s := 0x30 } 0x42 (by decide)

/-- C4 counterexample: with the stack pointer at 0xd0 (the stubbed Port R
region), pushing 0x00 and pulling returns the stub value 0xff, not the
pushed byte — the claim fails for stack pointers outside the RAM region. -/
theorem c4_claim_false_at_d0 :
    (pull (push 0x00 { baseState with s := 0xd0 })).2 = 0xff ∧
    (0xff : Nat) ≠ 0x00 := by
  constructor
  · decide
  · decide

/-- C7 (amended): reads of the stubbed addresses (0xd0-0xdf, 0xe0-0xe5,
0xe8-0xe9, 0xf9-0xff) return 0xff regardless of memory contents; reads of
every other 13-bit address (including 0xe6, 0xe7 and all addresses that
are neither RAM nor ROM) return the memory array byte; writes below 0x60
store the value and all other writes leave memory unchanged. -/
theorem c7_read_write_dispatch (mem : Nat → Nat) (address v : Nat)
    (h : address < 0x2000) :
    (stubbed address = true → readMem mem address = 0xff) ∧
    (stubbed address = false → readMem mem address = mem address) ∧
    (address < 0x60 →
      writeMem mem address v = fun a => if a = address then v else mem a) ∧
    (0x60 ≤ address → writeMem mem address v = mem) := by
  refine ⟨fun h1 => ?_, fun h2 => ?_, fun h3 => ?_, fun h4 => ?_⟩
  · unfold readMem
    rw [and_mask13_of_lt h, h1]
    simp
  · unfold readMem
    rw [and_mask13_of_lt h, h2]
    simp
  · unfold writeMem
    rw [and_mask13_of_lt h]
    simp [h3]
  · unfold writeMem
    rw [and_mask13_of_lt h]
    simp [Nat.not_lt_of_le h4]

/-- C7 witness: concrete application at the stubbed address 0xd5 and the
plain RAM address 0x10. -/
theorem c7_read_write_witness :
    ((stubbed 0xd5 = true → readMem zeroMem 0xd5 = 0xff) ∧
     (stubbed 0xd5 = false → readMem zeroMem 0xd5 = zeroMem 0xd5) ∧
     (0xd5 < 0x60 →
       writeMem zeroMem 0xd5 9 = fun a => if a = 0xd5 then 9 else zeroMem a) ∧
     (0x60 ≤ 0xd5 → writeMem zeroMem 0xd5 9 = zeroMem)) :=
  c7_read_write_dispatch zeroMem 0xd5 9 (by decide)

/-- C7 counterexample: address 0xe6 lies inside the claimed stub range
0xe0-0xe9 but is absent from the code's case list, so it reads the memory
array (0x00 on a zeroed image) rather than 0xff; likewise the undefined
address 0x60 reads the array rather than the claimed all-ones. -/
theorem c7_claim_false_at_e6 :
    readMem zeroMem 0xe6 = 0x00 ∧ readMem zeroMem 0x60 = 0x00 ∧
    (0x00 : Nat) ≠ 0xff := by
  refine ⟨by decide, by decide, by decide⟩

/-- Masking a byte with 0x80 isolates bit 7. -/
theorem and_128 (x : Nat) : x &&& 128 = if x.testBit 7 then 128 else 0 := by
  have h := Nat.and_two_pow x 7
  norm_num at h
  rw [h]
  cases hx : x.testBit 7 <;> simp

set_option maxRecDepth 4096 in
/-- Packing after unpacking reproduces any status byte whose undefined
bit (0x10) is clear. The composite depends only on the byte, so it is
computed once over a fixed base state and checked for all 256 bytes. -/
theorem flagsByte_setFlags (st : MState) (b : Nat) (hb : b < 256)
    (hb4 : b.testBit 4 = false) : flagsByte (setFlags b st) = b := by
  have key : ∀ c < 256, c.testBit 4 = false →
      flagsByte (setFlags c baseState) = c := by decide
  have hrw : flagsByte (setFlags b st) = flagsByte (setFlags b baseState) := rfl
  rw [hrw]
  exact key b hb hb4

/-- C5: round-tripping the seven flags through the packed status byte
reproduces every flag (bit 7 of the negative and overflow result bytes,
the index, decimal and interrupt fields, the zero test, and the carry);
the undefined bit 0x10 of the packed byte reads as 0; and for any status
byte with the undefined bit clear, packing after unpacking is the
identity. The two hypotheses are the representation invariants the code
maintains: `interrupt_disable_` is 0x00 or 0x04 and `carry_flag_` is 0 or 1. -/
theorem c5_flags_roundtrip (st : MState) (b : Nat)
    (hi : st.interruptDisable = 0 ∨ st.interruptDisable = 4)
    (hc : st.carryFlag ≤ 1)
    (hb : b < 256) (hb4 : b.testBit 4 = false) :
    ((setFlags (flagsByte st) st).negativeResult.testBit 7
        = st.negativeResult.testBit 7 ∧
     (setFlags (flagsByte st) st).overflowResult.testBit 7
        = st.overflowResult.testBit 7 ∧
     (setFlags (flagsByte st) st).indexMode = st.indexMode ∧
     (setFlags (flagsByte st) st).decimalMode = st.decimalMode ∧
     (setFlags (flagsByte st) st).interruptDisable = st.interruptDisable ∧
     ((setFlags (flagsByte st) st).zeroResult = 0 ↔ st.zeroResult = 0) ∧
     (setFlags (flagsByte st) st).carryFlag = st.carryFlag) ∧
    (flagsByte st).testBit 4 = false ∧
    flagsByte (setFlags b st) = b := by
  have hB := flagsByte_setFlags st b hb hb4
  have hc1 : st.carryFlag = 0 ∨ st.carryFlag = 1 := by omega
  have hA : ((setFlags (flagsByte st) st).negativeResult.testBit 7
        = st.negativeResult.testBit 7 ∧
      (setFlags (flagsByte st) st).overflowResult.testBit 7
        = st.overflowResult.testBit 7 ∧
      (setFlags (flagsByte st) st).indexMode = st.indexMode ∧
      (setFlags (flagsByte st) st).decimalMode = st.decimalMode ∧
      (setFlags (flagsByte st) st).interruptDisable = st.interruptDisable ∧
      ((setFlags (flagsByte st) st).zeroResult = 0 ↔ st.zeroResult = 0) ∧
      (setFlags (flagsByte st) st).carryFlag = st.carryFlag) ∧
      (flagsByte st).testBit 4 = false := by
    cases hN : st.negativeResult.testBit 7 <;>
      cases hV : st.overflowResult.testBit 7 <;>
      cases hT : st.indexMode <;>
      cases hD : st.decimalMode <;>
      rcases hi with hi | hi <;>
      rcases hc1 with hc1 | hc1 <;>
      by_cases hZ : st.zeroResult = 0 <;>
      simp [setFlags, flagsByte, and_128, hN, hV, hT, hD, hi, hc1, hZ] <;>
      decide
  exact ⟨hA.1, hA.2, hB⟩

/-- A mixed flag configuration used by the C5 witness. -/
def c5State : MState :=
  { baseState with
    negativeResult := 0x80
    overflowResult := 0x40
    indexMode := true
    interruptDisable := 4
    zeroResult := 0
    carryFlag := 1 }

/-- C5 witness: concrete application with all seven flags in a mixed
configuration and the status byte 0xa5. -/
theorem c5_flags_roundtrip_witness :
    (((setFlags (flagsByte c5State) c5State).negativeResult.testBit 7
        = c5State.negativeResult.testBit 7 ∧
      (setFlags (flagsByte c5State) c5State).overflowResult.testBit 7
        = c5State.overflowResult.testBit 7 ∧
      (setFlags (flagsByte c5State) c5State).indexMode = c5State.indexMode ∧
      (setFlags (flagsByte c5State) c5State).decimalMode = c5State.decimalMode ∧
      (setFlags (flagsByte c5State) c5State).interruptDisable
        = c5State.interruptDisable ∧
      ((setFlags (flagsByte c5State) c5State).zeroResult = 0
        ↔ c5State.zeroResult = 0) ∧
      (setFlags (flagsByte c5State) c5State).carryFlag = c5State.carryFlag) ∧
     (flagsByte c5State).testBit 4 = false ∧
     flagsByte (setFlags 0xa5 c5State) = 0xa5) :=
  c5_flags_roundtrip c5State 0xa5 (by decide) (by decide) (by decide) (by decide)

/-- Operand-level performer for SEBi (Executor.cpp lines 459-462):
`*operand |= 1 << i`, stored back into the `uint8_t` operand (hence the
0xff truncation of the store), with the machine state untouched. Returns
(new operand byte, new state). -/
def performSEB (i operand : Nat) (st : MState) : Nat × MState :=
  ((operand ||| (1 <<< i)) &&& 0xff, st)

/-- Operand-level performer for CLBi (Executor.cpp lines 463-466):
`*operand &= ~(1 << i)`. The `&` with the promoted-int complement keeps,
of the 8-bit operand, exactly the bits other than bit i; on bytes this is
the mask 0xff with bit i removed. -/
def performCLB (i operand : Nat) (st : MState) : Nat × MState :=
  (operand &&& (0xff ^^^ ((1 <<< i) &&& 0xff)), st)

set_option maxRecDepth 8192 in
/-- C9: SEBi and CLBi change only bit i of the operand byte (setting or
clearing it), leave its other seven bits unchanged, and leave the whole
machine state, in particular every flag, unchanged. -/
theorem c9_seb_clb_frame (i v : Nat) (st : MState) (hi : i < 8) (hv : v < 256) :
    (∀ j, j < 8 → j ≠ i →
      (performSEB i v st).1.testBit j = v.testBit j ∧
      (performCLB i v st).1.testBit j = v.testBit j) ∧
    (performSEB i v st).1.testBit i = true ∧
    (performCLB i v st).1.testBit i = false ∧
    (performSEB i v st).2 = st ∧
    (performCLB i v st).2 = st := by
  have key : ∀ i < 8, ∀ v < 256,
      (∀ j, j < 8 → j ≠ i →
        ((v ||| (1 <<< i)) &&& 0xff).testBit j = v.testBit j ∧
        (v &&& (0xff ^^^ ((1 <<< i) &&& 0xff))).testBit j = v.testBit j) ∧
      ((v ||| (1 <<< i)) &&& 0xff).testBit i = true ∧
      (v &&& (0xff ^^^ ((1 <<< i) &&& 0xff))).testBit i = false := by decide
  have h := key i hi v hv
  exact ⟨h.1, h.2.1, h.2.2, rfl, rfl⟩

/-- C9 witness: concrete application at bit 3 of operand byte 0x55. -/
theorem c9_seb_clb_witness :
    (∀ j, j < 8 → j ≠ 3 →
      (performSEB 3 0x55 baseState).1.testBit j = (0x55 : Nat).testBit j ∧
      (performCLB 3 0x55 baseState).1.testBit j = (0x55 : Nat).testBit j) ∧
    (performSEB 3 0x55 baseState).1.testBit 3 = true ∧
    (performCLB 3 0x55 baseState).1.testBit 3 = false ∧
    (performSEB 3 0x55 baseState).2 = baseState ∧
    (performCLB 3 0x55 baseState).2 = baseState :=
  c9_seb_clb_frame 3 0x55 baseState (by decide) (by decide)

/-- The `op_cmp` macro (Executor.cpp lines 583-587): compute the 16-bit
difference `lhs - operand` (the C++ int difference cast to `uint16_t`),
derive N and Z from its low byte, and the carry from bit 8 of the
promoted-int complement (`(~temp16 >> 8) & 1`, an arithmetic shift of a
negative int, i.e. floor division). -/
def cmpOn (lhs operand : Nat) (st : MState) : MState :=
  let temp16 : Nat := (((lhs : Int) - operand).emod 65536).toNat
  { st with
    negativeResult := temp16 % 256
    zeroResult := temp16 % 256
    carryFlag := (((-((temp16 : Int) + 1)).fdiv 256).emod 2).toNat }

/-- Operand-level performer for CMP (Executor.cpp lines 588-594): with
index mode set the left operand is the memory byte addressed by X, read
through the bus; otherwise it is the accumulator. No write-back occurs in
either case. -/
def performCMP (operand : Nat) (st : MState) : MState :=
  if st.indexMode then cmpOn (readMem st.memory st.x) operand st
  else cmpOn st.a operand st

/-- C10: with index mode set, CMP compares the memory byte addressed by X
(as the left-hand operand) and writes nothing back: the accumulator, X, Y,
the stack pointer, all of memory, the program counter and the overflow,
index-mode, decimal-mode and interrupt-disable flags are unchanged; only
N, Z and C are recomputed. -/
theorem c10_cmp_frame (operand : Nat) (st : MState) (h : st.indexMode = true) :
    performCMP operand st = cmpOn (readMem st.memory st.x) operand st ∧
    (performCMP operand st).a = st.a ∧
    (performCMP operand st).x = st.x ∧
    (performCMP operand st).y = st.y ∧
    (performCMP operand st).s = st.s ∧
    (performCMP operand st).memory = st.memory ∧
    (performCMP operand st).overflowResult = st.overflowResult ∧
    (performCMP operand st).indexMode = st.indexMode ∧
    (performCMP operand st).decimalMode = st.decimalMode ∧
    (performCMP operand st).interruptDisable = st.interruptDisable ∧
    (performCMP operand st).duration = st.duration ∧
    (performCMP operand st).pc = st.pc := by
  simp [performCMP, cmpOn, h]

/-- The index-mode state used by the C10 witness. -/
def c10State : MState := { baseState with indexMode := true, x := 0x10 }

/-- C10 witness: concrete application with X = 0x10 and operand 0x20. -/
theorem c10_cmp_witness :
    performCMP 0x20 c10State
        = cmpOn (readMem c10State.memory c10State.x) 0x20 c10State ∧
    (performCMP 0x20 c10State).a = c10State.a ∧
    (performCMP 0x20 c10State).x = c10State.x ∧
    (performCMP 0x20 c10State).y = c10State.y ∧
    (performCMP 0x20 c10State).s = c10State.s ∧
    (performCMP 0x20 c10State).memory = c10State.memory ∧
    (performCMP 0x20 c10State).overflowResult = c10State.overflowResult ∧
    (performCMP 0x20 c10State).indexMode = c10State.indexMode ∧
    (performCMP 0x20 c10State).decimalMode = c10State.decimalMode ∧
    (performCMP 0x20 c10State).interruptDisable = c10State.interruptDisable ∧
    (performCMP 0x20 c10State).duration = c10State.duration ∧
    (performCMP 0x20 c10State).pc = c10State.pc :=
  c10_cmp_frame 0x20 c10State (by decide)

/-- Operand-level performer for ADC and SBC (Executor.cpp lines 599-659).
`isADC` selects between the two operations. Byte variables (`a`, the
operand, memory contents) are assumed byte-valued, as their `uint8_t`
types enforce in the source; `uint8_t` casts appear as `% 256` / `&&& 0xff`.
C++ int arithmetic that can go negative (binary SBC, the decimal-SBC
16-bit difference) is carried out in `Int`, with the arithmetic right
shift of a negative int rendered as floor division and `uint8_t` casts of
int expressions as the low byte of the two's complement value (for an
xor/and of ints, the low byte is the xor/and of the low bytes). The
decimal-SBC nibble loop runs in `unsigned int`, i.e. modulo 2^32. Note
that the final store (lines 654-658) writes back `a`, the value captured
at entry, which the source declares `const` and never updates with the
computed result. -/
def performADCSBC (isADC : Bool) (operand : Nat) (st : MState) : MState :=
  let a := if st.indexMode then readMem st.memory st.x else st.a
  let st1 :=
    if st.decimalMode then
      if isADC then
        let r1 := st.carryFlag + (a &&& 0x0f) + (operand &&& 0x0f)
        let p1 := r1 &&& 0x0f
        let r2 := if 0x0a ≤ r1 then ((r1 + 0x06) &&& 0x0f) + 0x10 else r1
        let r3 := r2 + (a &&& 0xf0) + (operand &&& 0xf0)
        let p2 := p1 + (r3 &&& 0xf0)
        let r4 := if 0xa0 ≤ r3 then ((r3 + 0x60) &&& 0xff) + 0x100 else r3
        { st with
          overflowResult := ((p2 ^^^ a) &&& (p2 ^^^ operand)) &&& 0xff
          negativeResult := r4 % 256
          zeroResult := r4 % 256
          carryFlag := (r4 >>> 8) &&& 1 }
      else
        let borrow0 := st.carryFlag ^^^ 1
        let decimalResult := (((a : Int) - operand - borrow0).emod 65536).toNat
        let r1 := ((((a &&& 0x0f : Nat) : Int) - ((operand &&& 0x0f : Nat) : Int)
          - (borrow0 : Int)).emod 4294967296).toNat
        let r1a := if 0x0f < r1 then r1 - 0x06 else r1
        let borrow1 : Nat := if 0x0f < r1a then 0x10 else 0
        let r1b := r1a &&& 0x0f
        let r2 := ((((r1b + (a &&& 0xf0) : Nat) : Int) - ((operand &&& 0xf0 : Nat) : Int)
          - (borrow1 : Int)).emod 4294967296).toNat
        let r2a := if 0xf0 < r2 then r2 - 0x60 else r2
        let borrow2 : Nat := if 0xf0 < r2a then 0x100 else 0
        let r2b := r2a &&& 0xff
        let d8 := decimalResult % 256
        { st with
          overflowResult := ((d8 ^^^ a) &&& ((d8 ^^^ 0xff) ^^^ operand)) &&& 0xff
          negativeResult := r2b
          zeroResult := r2b
          carryFlag := ((borrow2 >>> 8) &&& 1) ^^^ 1 }
    else
      if isADC then
        let result := a + operand + st.carryFlag
        { st with
          overflowResult := ((result ^^^ a) &&& (result ^^^ operand)) &&& 0xff
          negativeResult := result % 256
          zeroResult := result % 256
          carryFlag := (result >>> 8) &&& 1 }
      else
        let result : Int := (a : Int) + (-(operand : Int) - 1) + st.carryFlag
        let r8 := (result.emod 256).toNat
        let nv8 := 0xff ^^^ operand
        { st with
          overflowResult := ((r8 ^^^ a) &&& (r8 ^^^ nv8)) &&& 0xff
          negativeResult := r8
          zeroResult := r8
          carryFlag := ((result.fdiv 256).emod 2).toNat }
  if st.indexMode then { st1 with memory := writeMem st1.memory st.x a }
  else { st1 with a := a }

/-- C1: binary ADC with accumulator 1, operand 1, carry clear and index
mode clear derives N and Z from the sum 2, but stores the pre-add value 1
back into the accumulator — the computed result byte is never stored, so
the claim that the stored byte equals the sum the flags came from fails. -/
theorem c1_adc_result_not_stored :
    (performADCSBC true 1 { baseState with a := 1 }).zeroResult = 2 ∧
    (performADCSBC true 1 { baseState with a := 1 }).negativeResult = 2 ∧
    (performADCSBC true 1 { baseState with a := 1 }).a = 1 ∧
    (performADCSBC true 1 { baseState with a := 1 }).a
      ≠ (performADCSBC true 1 { baseState with a := 1 }).zeroResult := by
  refine ⟨by decide, by decide, by decide, by decide⟩

/-- `next8` of the executor's operand fetch macros (Executor.cpp line
279): the byte after the opcode, fetched through the 13-bit mask. -/
def next8 (mem : Nat → Nat) (pc : Nat) : Nat := mem ((pc + 1) &&& 0x1fff)

/-- `next16` (Executor.cpp line 280): little-endian operand word, both
bytes fetched through the 13-bit mask. -/
def next16 (mem : Nat → Nat) (pc : Nat) : Nat :=
  next8 mem pc ||| (mem ((pc + 2) &&& 0x1fff) <<< 8)

/-- First pointer-byte fetch of AbsoluteIndirect (Executor.cpp lines
375-378): `memory_[address]` with `address = next16()` — no mask is
applied to this index. -/
def absIndirectFetch1 (mem : Nat → Nat) (pc : Nat) : Nat := next16 mem pc

/-- Second pointer-byte fetch of AbsoluteIndirect: `(address + 1) & 0x1fff`. -/
def absIndirectFetch2 (mem : Nat → Nat) (pc : Nat) : Nat :=
  (next16 mem pc + 1) &&& 0x1fff

/-- First pointer-byte fetch of ZeroPageIndirect (Executor.cpp lines
361-364): `memory_[address]` with `address = next8()`. -/
def zpIndirectFetch1 (mem : Nat → Nat) (pc : Nat) : Nat := next8 mem pc

/-- Second pointer-byte fetch of ZeroPageIndirect: `(address + 1) & 0xff`. -/
def zpIndirectFetch2 (mem : Nat → Nat) (pc : Nat) : Nat :=
  (next8 mem pc + 1) &&& 0xff

/-- The memory image for the C3 counterexample: an AbsoluteIndirect
operand word of 0x3000 at addresses 1 and 2. -/
def c3Mem : Nat → Nat :=
  fun a => if a = 1 then 0x00 else if a = 2 then 0x30 else 0

/-- C3: the first pointer-byte fetch of AbsoluteIndirect indexes the
8192-byte memory array with the unmasked 16-bit operand word — for the
operand word 0x3000 the index is 0x3000, outside the array — while the
second fetch of the same mode, and both ZeroPageIndirect fetches, stay in
bounds. -/
theorem c3_absolute_indirect_fetch_unmasked :
    absIndirectFetch1 c3Mem 0 = 0x3000 ∧
    ¬ absIndirectFetch1 c3Mem 0 < 0x2000 ∧
    absIndirectFetch2 c3Mem 0 < 0x2000 ∧
    zpIndirectFetch1 c3Mem 0 < 0x2000 ∧
    zpIndirectFetch2 c3Mem 0 < 0x2000 := by
  refine ⟨by decide, by decide, by decide, by decide, by decide⟩

/-- `Executor::perform_interrupt` (Executor.cpp lines 120-127): increment
the program counter once (the BRK-operand skip), push its high byte, its
low byte, then the status byte with the break marker when entered from
BRK, and load the program counter from the vector at 0x1ff4/0x1ff5 (a
direct little-endian array read). -/
def performInterrupt (isBrk : Bool) (st : MState) : MState :=
  let st1 := { st with pc := (st.pc + 1) % 65536 }
  let st2 := push ((st1.pc >>> 8) &&& 0xff) st1
  let st3 := push (st2.pc &&& 0xff) st2
  let st4 := push (flagsByte st3 ||| (if isBrk then 0x10 else 0x00)) st3
  { st4 with pc := (st4.memory 0x1ff4 ||| (st4.memory 0x1ff5 <<< 8)) &&& 0xffff }

/-- The full BRK performer: duration posting of 7 (line 200), then the
Implied-mode path (lines 288-291) running `perform<BRK>` — which calls
`perform_interrupt<true>` and decrements the program counter (lines
502-506) — followed by the Implied increment of the program counter. -/
def performBRK (st : MState) : MState :=
  let st1 := { st with duration := st.duration - 7 }
  let st2 := performInterrupt true st1
  let st3 := { st2 with pc := (st2.pc + 65535) % 65536 }
  { st3 with pc := (st3.pc + 1) % 65536 }

/-- Memory for the C6 evaluation: interrupt vector 0x1234 at 0x1ff4/5. -/
def c6Mem : Nat → Nat :=
  fun a => if a = 0x1ff4 then 0x34 else if a = 0x1ff5 then 0x12 else 0

/-- State for the C6 evaluation: BRK opcode at 0x1000, stack pointer 0x30,
all flags clear (Z clear: `zeroResult = 1`). -/
def c6State : MState := { baseState with pc := 0x1000, s := 0x30, memory := c6Mem }

/-- C6: executing BRK at 0x1000 pushes, in order, a return-address high
byte, low byte, and the status byte with the break marker 0x10, and loads
the program counter from the vector at 0x1ff4/0x1ff5 — but the pushed
return address is 0x1001, the address OF the unused operand byte, not the
byte after it (0x1002) as the claim states: the single increment in
`perform_interrupt` starts from the opcode address and so skips only the
opcode. -/
theorem c6_brk_pushes_operand_address :
    (performBRK c6State).memory 0x30 = 0x10 ∧
    (performBRK c6State).memory 0x2f = 0x01 ∧
    (performBRK c6State).memory 0x2e = 0x10 ∧
    (performBRK c6State).s = 0x2d ∧
    (performBRK c6State).pc = 0x1234 ∧
    (performBRK c6State).memory 0x2f ≠ 0x02 := by
  refine ⟨by decide, by decide, by decide, by decide, by decide, by decide⟩

/-- The addressing modes needed by the claims under study. -/
inductive AddressingMode where
  | Implied
  | Accumulator
  | Immediate
  | AccumulatorRelative
  | ZeroPageRelative
deriving DecidableEq

/-- Modelled from the spec: the operand-byte count of each addressing
mode (`size()` lives in Instruction.hpp, which is not part of the sources
under study; spec section 4.3 fixes each mode's length at 1-3 total
bytes). The values are pinned by Executor.cpp itself: the displacement is
fetched at pc+1 for AccumulatorRelative (line 323) and at pc+2 for
ZeroPageRelative (line 326), and the program counter advances by
`1 + size(addressing_mode)`. -/
def modeSize : AddressingMode → Nat
  | .Implied => 0
  | .Accumulator => 0
  | .Immediate => 1
  | .AccumulatorRelative => 1
  | .ZeroPageRelative => 2

/-- The `int8_t` cast of a byte: values 128-255 become negative. -/
def int8 (v : Nat) : Int :=
  if v % 256 < 128 then ((v % 256 : Nat) : Int) else ((v % 256 : Nat) : Int) - 256

/-- Performer for the bit-test-and-branch family BBSi/BBCi (Executor.cpp
lines 169-178 for the duration and 317-350 for the body), with the
operation encoded as `isBBS` plus the bit index `i`. The `constexpr`
guards translate as follows: for BBSi the guard
`operation >= BBS0 && operation < BBS7` holds exactly when `i < 7`; for
BBCi the guard `operation >= BBC0 && operation < BBS7` always holds,
because the Operation enumeration lays out BBC0..BBC7 then BBS0..BBS7
contiguously and in ascending order (forced by the bit-index arithmetic
`operation - BBC0` / `operation - BBS0` on lines 333 and 342 and the
listing order of the case labels on lines 169-172). The branch condition
compiled for both families is `value & (1 << i)`, i.e. bit set. -/
def performBitBranch (isBBS : Bool) (i : Nat) (mode : AddressingMode)
    (st : MState) : MState :=
  let st0 := { st with
    duration := st.duration -
      (if mode = AddressingMode.AccumulatorRelative then 4 else 5) }
  let value := if mode = .AccumulatorRelative then st0.a
    else readMem st0.memory (next8 st0.memory st0.pc)
  let disp := if mode = .AccumulatorRelative then next8 st0.memory st0.pc
    else st0.memory ((st0.pc + 2) &&& 0x1fff)
  let address : Int := (st0.pc : Int) + 1 + modeSize mode + int8 disp
  let st1 := { st0 with pc := (st0.pc + 1 + modeSize mode) % 65536 }
  let taken : Bool :=
    if isBBS then decide (i < 7) && (value &&& (1 <<< i) != 0)
    else value &&& (1 <<< i) != 0
  if taken then
    { st1 with pc := (address.emod 65536).toNat, duration := st1.duration - 2 }
  else st1

/-- Memory for the C2 evaluation: displacement byte 0x10 after the opcode
at 0x100. -/
def c2Mem : Nat → Nat := fun a => if a = 0x101 then 0x10 else 0

/-- State for the C2 evaluation: AccumulatorRelative bit-branch at 0x100;
the taken target would be 0x100 + 2 + 0x10 = 0x112, the not-taken
fall-through 0x102. -/
def c2State : MState := { baseState with pc := 0x100, memory := c2Mem }

/-- C2: the bit-branch polarity is wrong in the code. BBC0 with bit 0 of
the accumulator clear falls through (claim: must branch), BBC0 with bit 0
set branches to the target (claim: must not), and BBS7 with bit 7 set
falls through (claim: must branch, but the guard `operation < BBS7`
excludes BBS7). -/
theorem c2_bit_branch_polarity_wrong :
    (performBitBranch false 0 .AccumulatorRelative c2State).pc = 0x102 ∧
    (performBitBranch false 0 .AccumulatorRelative
      { c2State with a := 0x01 }).pc = 0x112 ∧
    (performBitBranch true 7 .AccumulatorRelative
      { c2State with a := 0x80 }).pc = 0x102 ∧
    (0x102 : Nat) ≠ 0x112 := by
  refine ⟨by decide, by decide, by decide, by decide⟩

/-- The operations needed by the table-builder claim: only the
distinction between Invalid and NOP matters there; the other operations
of the instruction set are embedded elsewhere in this file as dedicated
performer functions. -/
inductive Operation where
  | Invalid
  | NOP
deriving DecidableEq

/-- A decoded instruction, as produced by `Decoder::instrucion_for_opcode`. -/
structure Instruction where
  operation : Operation
  addressingMode : AddressingMode

/-- The constructor loop of `Executor::Executor` (Executor.cpp lines
17-31), for one opcode: an instruction decoding to Invalid is bound to
the performer for NOP with the decoded addressing mode; anything else is
bound to the performer for its exact pair. -/
def boundEntry (decode : Nat → Instruction) (c : Nat) :
    Operation × AddressingMode :=
  if (decode c).operation = Operation.Invalid then
    (Operation.NOP, (decode c).addressingMode)
  else
    ((decode c).operation, (decode c).addressingMode)

/-- The performer for (NOP, Implied): duration posting of 2 (Executor.cpp
lines 213-220), `perform<NOP>` which does nothing (lines 512-514), and
the Implied-mode program-counter increment (lines 288-291). -/
def performNOPImplied (st : MState) : MState :=
  { st with duration := st.duration - 2, pc := (st.pc + 1) % 65536 }

/-- C8: an opcode that decodes to Invalid (with the Implied mode the
decoder attaches to Invalid) is bound to exactly the (NOP, Implied)
performer, and that performer leaves all registers, all flags and memory
unchanged, advances the program counter by one, and subtracts NOP's cycle
cost of 2. -/
theorem c8_invalid_binds_nop (decode : Nat → Instruction) (c : Nat) (st : MState)
    (h : decode c = ⟨Operation.Invalid, AddressingMode.Implied⟩) :
    boundEntry decode c = (Operation.NOP, AddressingMode.Implied) ∧
    (performNOPImplied st).a = st.a ∧
    (performNOPImplied st).x = st.x ∧
    (performNOPImplied st).y = st.y ∧
    (performNOPImplied st).s = st.s ∧
    (performNOPImplied st).negativeResult = st.negativeResult ∧
    (performNOPImplied st).overflowResult = st.overflowResult ∧
    (performNOPImplied st).indexMode = st.indexMode ∧
    (performNOPImplied st).decimalMode = st.decimalMode ∧
    (performNOPImplied st).interruptDisable = st.interruptDisable ∧
    (performNOPImplied st).zeroResult = st.zeroResult ∧
    (performNOPImplied st).carryFlag = st.carryFlag ∧
    (performNOPImplied st).memory = st.memory ∧
    (performNOPImplied st).pc = (st.pc + 1) % 65536 ∧
    (performNOPImplied st).duration = st.duration - 2 := by
  simp [boundEntry, h, performNOPImplied]

/-- A decoder in which every opcode is Invalid/Implied, for the C8 witness. -/
def c8Decode : Nat → Instruction :=
  fun _ => ⟨Operation.Invalid, AddressingMode.Implied⟩

/-- C8 witness: concrete application at opcode 0x00 and the base state. -/
theorem c8_invalid_binds_nop_witness :
    boundEntry c8Decode 0 = (Operation.NOP, AddressingMode.Implied) ∧
    (performNOPImplied baseState).a = baseState.a ∧
    (performNOPImplied baseState).x = baseState.x ∧
    (performNOPImplied baseState).y = baseState.y ∧
    (performNOPImplied baseState).s = baseState.s ∧
    (performNOPImplied baseState).negativeResult = baseState.negativeResult ∧
    (performNOPImplied baseState).overflowResult = baseState.overflowResult ∧
    (performNOPImplied baseState).indexMode = baseState.indexMode ∧
    (performNOPImplied baseState).decimalMode = baseState.decimalMode ∧
    (performNOPImplied baseState).interruptDisable = baseState.interruptDisable ∧
    (performNOPImplied baseState).zeroResult = baseState.zeroResult ∧
    (performNOPImplied baseState).carryFlag = baseState.carryFlag ∧
    (performNOPImplied baseState).memory = baseState.memory ∧
    (performNOPImplied baseState).pc = (baseState.pc + 1) % 65536 ∧
    (performNOPImplied baseState).duration = baseState.duration - 2 :=
  c8_invalid_binds_nop c8Decode 0 baseState rfl

end M50740
